import Mathlib

/-!
Shallow embedding of the BME690 breakout-board example code
(`examples/common/common.c` and `examples/self_test/self_test.c`).

Bytes are modelled as `Nat` (values below 256, matching `uint8_t`);
the signed status codes of the sensor driver are `Int`.  The pigpio
primitives (`i2cWriteDevice`, `i2cReadDevice`, `spiXfer`, `spiWrite`,
`gpioInitialise`, `i2cOpen`, `spiOpen`) are external: each shim
function is parameterised by an oracle giving the primitives' results,
and returns, besides its status, the trace of primitive calls it made.
-/

/-! ### Status codes and constants of the external sensor-driver header
(`bme69x_defs.h`, an external dependency; the named codes are listed in
the spec's external-interface section). -/

def BME69X_OK : Int := 0
def BME69X_E_NULL_PTR : Int := -1
def BME69X_E_COM_FAIL : Int := -2
def BME69X_E_DEV_NOT_FOUND : Int := -3
def BME69X_E_INVALID_LENGTH : Int := -4
def BME69X_E_SELF_TEST : Int := -5
def BME69X_W_NO_NEW_DATA : Int := 2
def BME69X_INTF_RET_SUCCESS : Int := BME69X_OK
def BME69X_CHIP_ID : Nat := 0x61
def BME69X_I2C_INTF : Nat := 1
def BME69X_SPI_INTF : Nat := 0
def BME69X_I2C_ADDR_HIGH : Nat := 0x77

/-! ### Constants of common.c -/

def BME69X_I2C_BUS : Nat := 1
def BME69X_SPI_BUS : Nat := 0
def BME69X_SPI_SPEED : Nat := 1000000

/-- Oracle for the pigpio transfer primitives.  `i2cWriteDevice` and
`spiWrite` take the handle and the buffer and give the int result;
`i2cReadDevice` takes the handle and the count and gives the int result
together with the bytes it deposited in the caller's buffer (as a
function of the index); `spiXfer` takes the handle and the tx buffer
and gives the int result and the received bytes. -/
structure Pigpio where
  i2cWriteDevice : Int → List Nat → Int
  i2cReadDevice : Int → Nat → Int × (Nat → Nat)
  spiXfer : Int → List Nat → Int × (Nat → Nat)
  spiWrite : Int → List Nat → Int

/-- One call to a pigpio transfer primitive, as recorded in a trace. -/
inductive BusCall where
  | i2cWriteDevice (handle : Int) (buffer : List Nat)
  | i2cReadDevice (handle : Int) (count : Nat)
  | spiXfer (handle : Int) (txBuffer : List Nat)
  | spiWrite (handle : Int) (txBuffer : List Nat)
  deriving DecidableEq, Repr

/-- Translation of `bme69x_i2c_read` (common.c:42-63).  `reg_data` is the
caller's buffer before the call; the second component of the result is the
buffer after the call (the pigpio read overwrites it with the oracle's
bytes), the third is the trace of primitive calls. -/
def bme69x_i2c_read (pg : Pigpio) (i2c_handle : Int) (reg_addr : Nat)
    (reg_data : List Nat) (len : Nat) : Int × List Nat × List BusCall :=
  if i2c_handle < 0 then
    (BME69X_E_COM_FAIL, reg_data, [])
  else
    let result := pg.i2cWriteDevice i2c_handle [reg_addr]
    if result < 0 then
      (BME69X_E_COM_FAIL, reg_data, [BusCall.i2cWriteDevice i2c_handle [reg_addr]])
    else
      let r2 := pg.i2cReadDevice i2c_handle len
      let reg_data2 := (List.range len).map r2.2
      if r2.1 ≠ (len : Int) then
        (BME69X_E_COM_FAIL, reg_data2,
          [BusCall.i2cWriteDevice i2c_handle [reg_addr], BusCall.i2cReadDevice i2c_handle len])
      else
        (BME69X_INTF_RET_SUCCESS, reg_data2,
          [BusCall.i2cWriteDevice i2c_handle [reg_addr], BusCall.i2cReadDevice i2c_handle len])

/-- Translation of `bme69x_i2c_write` (common.c:68-90).  The local
`buffer` holds `reg_addr` at index 0 and `reg_data[i]` at index `i+1`
(`len` is `reg_data.length`). -/
def bme69x_i2c_write (pg : Pigpio) (i2c_handle : Int) (reg_addr : Nat)
    (reg_data : List Nat) : Int × List BusCall :=
  if i2c_handle < 0 then
    (BME69X_E_COM_FAIL, [])
  else
    let buffer := reg_addr :: reg_data
    let result := pg.i2cWriteDevice i2c_handle buffer
    if result < 0 then
      (BME69X_E_COM_FAIL, [BusCall.i2cWriteDevice i2c_handle buffer])
    else
      (BME69X_INTF_RET_SUCCESS, [BusCall.i2cWriteDevice i2c_handle buffer])

/-- Translation of `bme69x_spi_read` (common.c:95-122).  The tx buffer is
`reg_addr | 0x80` followed by `len` zero bytes; on a non-negative transfer
result, received bytes 1..len are copied into the caller's buffer. -/
def bme69x_spi_read (pg : Pigpio) (spi_handle : Int) (reg_addr : Nat)
    (reg_data : List Nat) (len : Nat) : Int × List Nat × List BusCall :=
  if spi_handle < 0 then
    (BME69X_E_COM_FAIL, reg_data, [])
  else
    let tx_buffer := Nat.lor reg_addr 0x80 :: List.replicate len 0
    let r := pg.spiXfer spi_handle tx_buffer
    if r.1 < 0 then
      (BME69X_E_COM_FAIL, reg_data, [BusCall.spiXfer spi_handle tx_buffer])
    else
      (BME69X_INTF_RET_SUCCESS, (List.range len).map (fun i => r.2 (i + 1)),
        [BusCall.spiXfer spi_handle tx_buffer])

/-- Translation of `bme69x_spi_write` (common.c:127-149).  The tx buffer is
`reg_addr & 0x7F` followed by the data bytes (`len` is `reg_data.length`). -/
def bme69x_spi_write (pg : Pigpio) (spi_handle : Int) (reg_addr : Nat)
    (reg_data : List Nat) : Int × List BusCall :=
  if spi_handle < 0 then
    (BME69X_E_COM_FAIL, [])
  else
    let tx_buffer := Nat.land reg_addr 0x7F :: reg_data
    let result := pg.spiWrite spi_handle tx_buffer
    if result < 0 then
      (BME69X_E_COM_FAIL, [BusCall.spiWrite spi_handle tx_buffer])
    else
      (BME69X_INTF_RET_SUCCESS, [BusCall.spiWrite spi_handle tx_buffer])

/-! ### Interface lifecycle (common.c:199-281) -/

/-- What a read/write function-pointer field of the device struct holds:
nothing yet, the I2C shim, or the SPI shim. -/
inductive XferPtr where
  | unset
  | i2cPtr
  | spiPtr
  deriving DecidableEq, Repr

/-- The fields of `struct bme69x_dev` that common.c touches.  `delay_us`
and `intf_ptr` record whether the delay callback and the context pointer
have been installed. -/
structure Bme69xDev where
  read : XferPtr
  write : XferPtr
  intf : Nat
  delay_us : Bool
  intf_ptr : Bool
  amb_temp : Int
  deriving DecidableEq, Repr

/-- The static state of common.c: `dev_addr`, `i2c_handle`, `spi_handle`
(the handles start at -1). -/
structure CommonState where
  dev_addr : Nat
  i2c_handle : Int
  spi_handle : Int
  deriving DecidableEq, Repr

/-- Oracle for the pigpio lifecycle primitives used by
`bme69x_interface_init`: results of `gpioInitialise`,
`i2cOpen(BME69X_I2C_BUS, dev_addr, 0)` and
`spiOpen(BME69X_SPI_BUS, BME69X_SPI_SPEED, 0)`. -/
structure PigpioLife where
  gpioInitialise : Int
  i2cOpen : Int
  spiOpen : Int

/-- One pigpio lifecycle call, as recorded in a trace. -/
inductive LifeCall where
  | gpioInitialise
  | i2cOpen (bus addr : Nat)
  | spiOpen (bus speed : Nat)
  | i2cClose (handle : Int)
  | spiClose (handle : Int)
  | gpioTerminate
  deriving DecidableEq, Repr

/-- Tail of the non-null branch of `bme69x_interface_init`
(common.c:252-254): install the delay callback, the context pointer and
the 25 degC ambient-temperature hint. -/
def installCommonFields (bme : Bme69xDev) : Bme69xDev :=
  { bme with delay_us := true, intf_ptr := true, amb_temp := 25 }

/-- Translation of `bme69x_interface_init` (common.c:199-262).  Returns
the status, the static state after the call, the device struct after the
call (`none` models a NULL `bme`), and the trace of pigpio lifecycle
calls. -/
def bme69x_interface_init (pg : PigpioLife) (st : CommonState)
    (bme : Option Bme69xDev) (intf : Nat) :
    Int × CommonState × Option Bme69xDev × List LifeCall :=
  match bme with
  | none => (BME69X_E_NULL_PTR, st, none, [])
  | some bme =>
    if pg.gpioInitialise < 0 then
      (BME69X_E_COM_FAIL, st, some bme, [LifeCall.gpioInitialise])
    else if intf = BME69X_I2C_INTF then
      let st := { st with dev_addr := BME69X_I2C_ADDR_HIGH }
      let st := { st with i2c_handle := pg.i2cOpen }
      if st.i2c_handle < 0 then
        (BME69X_E_COM_FAIL, st, some bme,
          [LifeCall.gpioInitialise, LifeCall.i2cOpen BME69X_I2C_BUS st.dev_addr,
            LifeCall.gpioTerminate])
      else
        let bme := { bme with read := XferPtr.i2cPtr, write := XferPtr.i2cPtr,
                              intf := BME69X_I2C_INTF }
        (BME69X_OK, st, some (installCommonFields bme),
          [LifeCall.gpioInitialise, LifeCall.i2cOpen BME69X_I2C_BUS st.dev_addr])
    else if intf = BME69X_SPI_INTF then
      let st := { st with spi_handle := pg.spiOpen }
      if st.spi_handle < 0 then
        (BME69X_E_COM_FAIL, st, some bme,
          [LifeCall.gpioInitialise, LifeCall.spiOpen BME69X_SPI_BUS BME69X_SPI_SPEED,
            LifeCall.gpioTerminate])
      else
        let bme := { bme with read := XferPtr.spiPtr, write := XferPtr.spiPtr,
                              intf := BME69X_SPI_INTF }
        (BME69X_OK, st, some (installCommonFields bme),
          [LifeCall.gpioInitialise, LifeCall.spiOpen BME69X_SPI_BUS BME69X_SPI_SPEED])
    else
      (BME69X_OK, st, some (installCommonFields bme), [LifeCall.gpioInitialise])

/-- Translation of `bme69x_pigpio_deinit` (common.c:264-281): closes each
handle that is ≥ 0 and resets it to -1, then terminates pigpio.  Returns
the state after the call and the trace of close/terminate calls. -/
def bme69x_pigpio_deinit (st : CommonState) : CommonState × List LifeCall :=
  let p1 :=
    if st.i2c_handle ≥ 0 then
      ({ st with i2c_handle := -1 }, [LifeCall.i2cClose st.i2c_handle])
    else (st, [])
  let p2 :=
    if p1.1.spi_handle ≥ 0 then
      ({ p1.1 with spi_handle := -1 }, p1.2 ++ [LifeCall.spiClose p1.1.spi_handle])
    else (p1.1, p1.2)
  (p2.1, p2.2 ++ [LifeCall.gpioTerminate])

/-! ### Self-test program (self_test.c) -/

/-- One call into the sensor-driver API, as recorded by the self-test
sequence. -/
inductive DriverCall where
  | get_conf
  | set_conf
  | set_heatr_conf
  | set_op_mode
  | get_data
  deriving DecidableEq, Repr

/-- The device responses seen by `custom_selftest_check`: the chip id of
the device struct, the statuses returned by the five sensor-driver calls,
and the measurement record (`n_fields`, temperature, pressure, humidity,
status bits, idac) delivered by `bme69x_get_data`.  The physical values
are `float` in the C; they are modelled as rationals. -/
structure SelfTestEnv where
  chip_id : Nat
  get_conf_rslt : Int
  set_conf_rslt : Int
  set_heatr_conf_rslt : Int
  set_op_mode_rslt : Int
  get_data_rslt : Int
  n_fields : Nat
  temperature : ℚ
  pressure : ℚ
  humidity : ℚ
  status : Nat
  idac : Nat
  deriving DecidableEq, Repr

/-- Translation of `custom_selftest_check` (self_test.c:13-133).  Returns
the int8 result together with the trace of sensor-driver calls made.
Step 3's heater-configuration failure only prints a warning (self_test.c:58),
step 6 and the summary only print, so neither affects the result. -/
def custom_selftest_check (env : SelfTestEnv) : Int × List DriverCall :=
  if env.chip_id ≠ BME69X_CHIP_ID then
    (BME69X_E_DEV_NOT_FOUND, [])
  else if env.get_conf_rslt ≠ BME69X_OK then
    (env.get_conf_rslt, [DriverCall.get_conf])
  else if env.set_conf_rslt ≠ BME69X_OK then
    (env.set_conf_rslt, [DriverCall.get_conf, DriverCall.set_conf])
  else if env.set_op_mode_rslt ≠ BME69X_OK then
    (env.set_op_mode_rslt,
      [DriverCall.get_conf, DriverCall.set_conf, DriverCall.set_heatr_conf,
        DriverCall.set_op_mode])
  else if env.get_data_rslt ≠ BME69X_OK ∨ env.n_fields = 0 then
    (BME69X_E_COM_FAIL,
      [DriverCall.get_conf, DriverCall.set_conf, DriverCall.set_heatr_conf,
        DriverCall.set_op_mode, DriverCall.get_data])
  else if env.temperature < 0 ∨ env.temperature > 60 then
    (BME69X_E_SELF_TEST,
      [DriverCall.get_conf, DriverCall.set_conf, DriverCall.set_heatr_conf,
        DriverCall.set_op_mode, DriverCall.get_data])
  else if env.pressure / 100 < 300 ∨ env.pressure / 100 > 1200 then
    (BME69X_E_SELF_TEST,
      [DriverCall.get_conf, DriverCall.set_conf, DriverCall.set_heatr_conf,
        DriverCall.set_op_mode, DriverCall.get_data])
  else if env.humidity < 0 ∨ env.humidity > 100 then
    (BME69X_E_SELF_TEST,
      [DriverCall.get_conf, DriverCall.set_conf, DriverCall.set_heatr_conf,
        DriverCall.set_op_mode, DriverCall.get_data])
  else
    (BME69X_OK,
      [DriverCall.get_conf, DriverCall.set_conf, DriverCall.set_heatr_conf,
        DriverCall.set_op_mode, DriverCall.get_data])

/-- The statuses seen by `main` (self_test.c:139-169): the results of
`bme69x_interface_init`, `bme69x_init` and `custom_selftest_check`. -/
structure MainEnv where
  interface_init_rslt : Int
  init_rslt : Int
  selftest_rslt : Int
  deriving DecidableEq, Repr

set_option linter.unusedVariables false in
/-- Translation of `main` (self_test.c:139-169): `rslt` is assigned the
result of each call in turn; `bme69x_check_rslt` only prints, so nothing
branches on the first two statuses, and the exit code is
`(rslt == BME69X_OK) ? 0 : 1` on the last one. -/
def main_run (env : MainEnv) : Nat :=
  let rslt := env.interface_init_rslt
  let rslt := env.init_rslt
  let rslt := env.selftest_rslt
  if rslt = BME69X_OK then 0 else 1

/-! ### Helper lemmas and concrete oracles -/

/-- A benign transfer oracle: every primitive reports a full transfer and
delivers zero bytes. -/
def pgZero : Pigpio where
  i2cWriteDevice := fun _ b => (b.length : Int)
  i2cReadDevice := fun _ n => ((n : Int), fun _ => 0)
  spiXfer := fun _ b => ((b.length : Int), fun _ => 0)
  spiWrite := fun _ b => (b.length : Int)

/-- A transfer oracle whose `spiXfer` reports a transfer of 0 bytes (a
short but non-negative result) and whose other primitives report full
transfers. -/
def pgShortSpi : Pigpio where
  i2cWriteDevice := fun _ b => (b.length : Int)
  i2cReadDevice := fun _ n => ((n : Int), fun _ => 0)
  spiXfer := fun _ _ => (0, fun _ => 0)
  spiWrite := fun _ b => (b.length : Int)

lemma testBit7_lor_128 (a : Nat) : (Nat.lor a 128).testBit 7 = true := by
  have h1 : Nat.lor a 128 = a ||| 128 := rfl
  have h2 : Nat.testBit 128 7 = true := by decide
  rw [h1, Nat.testBit_lor, h2]
  simp

lemma testBit7_land_127 (a : Nat) : (Nat.land a 127).testBit 7 = false := by
  have h1 : Nat.land a 127 = a &&& 127 := rfl
  have h2 : Nat.testBit 127 7 = false := by decide
  rw [h1, Nat.testBit_land, h2]
  simp

lemma land_127_of_lt (a : Nat) (ha : a < 128) : Nat.land a 127 = a := by
  have h : Nat.land a 127 = a &&& 127 := rfl
  rw [h]
  apply Nat.eq_of_testBit_eq
  intro i
  rw [Nat.testBit_land]
  rcases lt_or_le i 7 with hi | hi
  · have h3 : (127 : Nat).testBit i = true := by
      interval_cases i <;> decide
    simp [h3]
  · have hle : (2 : Nat) ^ 7 ≤ 2 ^ i := Nat.pow_le_pow_right (by norm_num) hi
    have ha' : a < 2 ^ 7 := by
      have : (128 : Nat) = 2 ^ 7 := by norm_num
      rw [← this]; exact ha
    have h1 : a.testBit i = false :=
      Nat.testBit_lt_two_pow (lt_of_lt_of_le ha' hle)
    have h2 : (127 : Nat).testBit i = false := by
      have h127 : (127 : Nat) < 2 ^ 7 := by norm_num
      exact Nat.testBit_lt_two_pow (lt_of_lt_of_le h127 hle)
    simp [h1, h2]

/-! ### C1: the Write frame -/

/-- C1 counterexample: the claim as stated fails on the SPI path.  For
register address 0x80 the transmitted SPI write frame's byte 0 is
`0x80 & 0x7F = 0`, not the register address 0x80. -/
theorem spi_write_frame_byte0_counterexample :
    ¬ (∀ (pg : Pigpio) (h : Int) (a : Nat) (d : List Nat), 0 ≤ h → a < 256 →
        ∃ f, (bme69x_spi_write pg h a d).2 = [BusCall.spiWrite h f] ∧
          f.length = d.length + 1 ∧ f.headD 0 = a) := by
  intro hall
  obtain ⟨f, hf, hlen, hhead⟩ := hall pgZero 0 128 [] le_rfl (by norm_num)
  have hev : (bme69x_spi_write pgZero 0 128 []).2 = [BusCall.spiWrite 0 [0]] := by
    rfl
  rw [hev] at hf
  simp only [List.cons.injEq, BusCall.spiWrite.injEq, and_true, true_and] at hf
  rw [← hf] at hhead
  simp at hhead

/-- C1 (amended): for an opened handle, Write transmits a single frame of
size `length+1` whose bytes 1..length are the caller's data bytes in
order; byte 0 is the register address on the I2C path, and the register
address with its top bit cleared (`reg_addr & 0x7F`; equal to the
register address whenever the address is below 0x80) on the SPI path. -/
theorem write_transmits_single_frame (pg : Pigpio) (h : Int) (a : Nat)
    (d : List Nat) (hh : 0 ≤ h) :
    (∃ f, (bme69x_i2c_write pg h a d).2 = [BusCall.i2cWriteDevice h f] ∧
        f.length = d.length + 1 ∧ f.headD 0 = a ∧ f.tail = d) ∧
    (∃ f, (bme69x_spi_write pg h a d).2 = [BusCall.spiWrite h f] ∧
        f.length = d.length + 1 ∧ f.headD 0 = Nat.land a 0x7F ∧
        (f.headD 0).testBit 7 = false ∧ (a < 128 → f.headD 0 = a) ∧ f.tail = d) := by
  have h1 : ¬ h < 0 := not_lt.mpr hh
  constructor
  · refine ⟨a :: d, ?_, by simp, rfl, rfl⟩
    simp only [bme69x_i2c_write, if_neg h1]
    split <;> rfl
  · refine ⟨Nat.land a 0x7F :: d, ?_, by simp, rfl, testBit7_land_127 a,
      fun hlt => land_127_of_lt a hlt, rfl⟩
    simp only [bme69x_spi_write, if_neg h1]
    split <;> rfl

/-- Witness for `write_transmits_single_frame` at a concrete input. -/
theorem write_transmits_single_frame_witness :
    (0 : Int) ≤ 0 ∧
    ((∃ f, (bme69x_i2c_write pgZero 0 5 [1, 2]).2 = [BusCall.i2cWriteDevice 0 f] ∧
        f.length = [1, 2].length + 1 ∧ f.headD 0 = 5 ∧ f.tail = [1, 2]) ∧
     (∃ f, (bme69x_spi_write pgZero 0 5 [1, 2]).2 = [BusCall.spiWrite 0 f] ∧
        f.length = [1, 2].length + 1 ∧ f.headD 0 = Nat.land 5 0x7F ∧
        (f.headD 0).testBit 7 = false ∧ (5 < 128 → f.headD 0 = 5) ∧ f.tail = [1, 2])) :=
  ⟨le_rfl, write_transmits_single_frame pgZero 0 5 [1, 2] le_rfl⟩

/-! ### C2: the SPI address-bit convention -/

/-- C2: for an opened SPI handle, the Read request frame has size
`len+1`, byte 0 with the top bit set (`reg_addr | 0x80`) and the
remaining `len` bytes zero; when the transfer result is non-negative the
caller's buffer receives received bytes 1..len in order (dropping the
address echo at byte 0); the Write frame's byte 0 has the top bit
cleared. -/
theorem spi_address_marker (pg : Pigpio) (h : Int) (a : Nat)
    (buf d : List Nat) (len : Nat) (hh : 0 ≤ h) :
    (∃ f, (bme69x_spi_read pg h a buf len).2.2 = [BusCall.spiXfer h f] ∧
        f.length = len + 1 ∧ (f.headD 0).testBit 7 = true ∧
        f.tail = List.replicate len 0 ∧
        (0 ≤ (pg.spiXfer h f).1 →
          (bme69x_spi_read pg h a buf len).2.1 =
            (List.range len).map (fun i => (pg.spiXfer h f).2 (i + 1)))) ∧
    (∃ f, (bme69x_spi_write pg h a d).2 = [BusCall.spiWrite h f] ∧
        (f.headD 0).testBit 7 = false) := by
  have h1 : ¬ h < 0 := not_lt.mpr hh
  refine ⟨⟨Nat.lor a 0x80 :: List.replicate len 0, ?_, by simp, testBit7_lor_128 a,
      rfl, ?_⟩,
    ⟨Nat.land a 0x7F :: d, ?_, testBit7_land_127 a⟩⟩
  · simp only [bme69x_spi_read, if_neg h1]
    split <;> rfl
  · intro hr
    simp only [bme69x_spi_read, if_neg h1]
    rw [if_neg (not_lt.mpr hr)]
  · simp only [bme69x_spi_write, if_neg h1]
    split <;> rfl

/-- Witness for `spi_address_marker` at a concrete input. -/
theorem spi_address_marker_witness :
    (0 : Int) ≤ 0 ∧
    ((∃ f, (bme69x_spi_read pgZero 0 0x10 [7] 2).2.2 = [BusCall.spiXfer 0 f] ∧
        f.length = 2 + 1 ∧ (f.headD 0).testBit 7 = true ∧
        f.tail = List.replicate 2 0 ∧
        (0 ≤ (pgZero.spiXfer 0 f).1 →
          (bme69x_spi_read pgZero 0 0x10 [7] 2).2.1 =
            (List.range 2).map (fun i => (pgZero.spiXfer 0 f).2 (i + 1)))) ∧
     (∃ f, (bme69x_spi_write pgZero 0 0x10 [3]).2 = [BusCall.spiWrite 0 f] ∧
        (f.headD 0).testBit 7 = false)) :=
  ⟨le_rfl, spi_address_marker pgZero 0 0x10 [7] [3] 2 le_rfl⟩

/-! ### C3: unopened handle -/

/-- C3: with a negative (never-opened) handle, each of the four shim
functions returns communication-failure with an empty primitive-call
trace (no transfer primitive invoked) and, for the reads, the caller's
buffer unchanged. -/
theorem unopened_handle_fails_immediately (pg : Pigpio) (h : Int) (a : Nat)
    (buf d : List Nat) (len : Nat) (hneg : h < 0) :
    bme69x_i2c_read pg h a buf len = (BME69X_E_COM_FAIL, buf, []) ∧
    bme69x_i2c_write pg h a d = (BME69X_E_COM_FAIL, []) ∧
    bme69x_spi_read pg h a buf len = (BME69X_E_COM_FAIL, buf, []) ∧
    bme69x_spi_write pg h a d = (BME69X_E_COM_FAIL, []) := by
  refine ⟨?_, ?_, ?_, ?_⟩
  · simp only [bme69x_i2c_read, if_pos hneg]
  · simp only [bme69x_i2c_write, if_pos hneg]
  · simp only [bme69x_spi_read, if_pos hneg]
  · simp only [bme69x_spi_write, if_pos hneg]

/-- Witness for `unopened_handle_fails_immediately` at a concrete input. -/
theorem unopened_handle_fails_immediately_witness :
    (-1 : Int) < 0 ∧
    (bme69x_i2c_read pgZero (-1) 0x20 [9] 1 = (BME69X_E_COM_FAIL, [9], []) ∧
     bme69x_i2c_write pgZero (-1) 0x20 [4] = (BME69X_E_COM_FAIL, []) ∧
     bme69x_spi_read pgZero (-1) 0x20 [9] 1 = (BME69X_E_COM_FAIL, [9], []) ∧
     bme69x_spi_write pgZero (-1) 0x20 [4] = (BME69X_E_COM_FAIL, [])) :=
  ⟨by norm_num, unopened_handle_fails_immediately pgZero (-1) 0x20 [9] [4] 1 (by norm_num)⟩

/-! ### C4: read failure policy -/

/-- Status of the I2C read as a function of the primitives' results. -/
lemma i2c_read_status_eq (pg : Pigpio) (h : Int) (a : Nat) (buf : List Nat)
    (len : Nat) (hh : 0 ≤ h) :
    (bme69x_i2c_read pg h a buf len).1 =
      if pg.i2cWriteDevice h [a] < 0 ∨ (pg.i2cReadDevice h len).1 ≠ (len : Int)
      then BME69X_E_COM_FAIL else BME69X_INTF_RET_SUCCESS := by
  have h1 : ¬ h < 0 := not_lt.mpr hh
  simp only [bme69x_i2c_read, if_neg h1]
  by_cases hw : pg.i2cWriteDevice h [a] < 0
  · simp [hw]
  · by_cases hr : (pg.i2cReadDevice h len).1 ≠ (len : Int)
    · simp [hw, hr]
    · simp [hw, hr]

/-- Status of the SPI read as a function of the transfer result: only a
negative `spiXfer` result is reported as a failure. -/
lemma spi_read_status_eq (pg : Pigpio) (h : Int) (a : Nat) (buf : List Nat)
    (len : Nat) (hh : 0 ≤ h) :
    (bme69x_spi_read pg h a buf len).1 =
      if (pg.spiXfer h (Nat.lor a 0x80 :: List.replicate len 0)).1 < 0
      then BME69X_E_COM_FAIL else BME69X_INTF_RET_SUCCESS := by
  have h1 : ¬ h < 0 := not_lt.mpr hh
  simp only [bme69x_spi_read, if_neg h1]
  by_cases hx : (pg.spiXfer h (Nat.lor a 0x80 :: List.replicate len 0)).1 < 0
  · simp [hx]
  · simp [hx]

/-- C4 counterexample: for len 1 the SPI read requests a 2-byte transfer;
with a transfer primitive reporting 0 bytes moved (fewer than requested,
but non-negative) the SPI Read path returns success instead of the
communication-failure status the claim requires. -/
theorem spi_read_short_transfer_counterexample :
    (pgShortSpi.spiXfer 0 [Nat.lor 0x10 0x80, 0]).1 = 0 ∧ (0 : Int) < 1 + 1 ∧
    (bme69x_spi_read pgShortSpi 0 0x10 [7] 1).1 = BME69X_INTF_RET_SUCCESS ∧
    BME69X_INTF_RET_SUCCESS ≠ BME69X_E_COM_FAIL := by
  refine ⟨rfl, by norm_num, rfl, ?_⟩
  norm_num [BME69X_INTF_RET_SUCCESS, BME69X_OK, BME69X_E_COM_FAIL]

/-- C4 (amended): for an opened handle, the I2C Read path returns
communication-failure exactly when the address write reports an error or
the data read's reported count differs from the requested length (with a
primitive that never reports more than requested, exactly on error or
short transfer), and success otherwise; the SPI Read path returns
communication-failure exactly when `spiXfer` reports a negative result —
a short but non-negative transfer count is not detected and yields
success. -/
theorem read_failure_policy (pg : Pigpio) (h : Int) (a : Nat)
    (buf : List Nat) (len : Nat) (hh : 0 ≤ h)
    (hbound : (pg.i2cReadDevice h len).1 ≤ (len : Int)) :
    ((bme69x_i2c_read pg h a buf len).1 = BME69X_E_COM_FAIL ↔
      (pg.i2cWriteDevice h [a] < 0 ∨ (pg.i2cReadDevice h len).1 < (len : Int))) ∧
    ((bme69x_i2c_read pg h a buf len).1 ≠ BME69X_E_COM_FAIL →
      (bme69x_i2c_read pg h a buf len).1 = BME69X_INTF_RET_SUCCESS) ∧
    ((bme69x_spi_read pg h a buf len).1 = BME69X_E_COM_FAIL ↔
      (pg.spiXfer h (Nat.lor a 0x80 :: List.replicate len 0)).1 < 0) ∧
    ((bme69x_spi_read pg h a buf len).1 ≠ BME69X_E_COM_FAIL →
      (bme69x_spi_read pg h a buf len).1 = BME69X_INTF_RET_SUCCESS) := by
  have hi2c := i2c_read_status_eq pg h a buf len hh
  have hspi := spi_read_status_eq pg h a buf len hh
  have hne : BME69X_E_COM_FAIL ≠ BME69X_INTF_RET_SUCCESS := by
    norm_num [BME69X_E_COM_FAIL, BME69X_INTF_RET_SUCCESS, BME69X_OK]
  have hlt : (pg.i2cReadDevice h len).1 ≠ (len : Int) ↔
      (pg.i2cReadDevice h len).1 < (len : Int) := by
    constructor
    · intro hne2
      exact lt_of_le_of_ne hbound hne2
    · intro hlt2
      exact ne_of_lt hlt2
  refine ⟨?_, ?_, ?_, ?_⟩
  · rw [hi2c, ← hlt]
    split
    case isTrue hc => simp [hc]
    case isFalse hc =>
      simp [hc]
      exact fun hx => hne hx.symm
  · rw [hi2c]
    split
    case isTrue hc => intro hcon; exact absurd rfl hcon
    case isFalse hc => intro _; rfl
  · rw [hspi]
    split
    case isTrue hc => simp [hc]
    case isFalse hc =>
      simp [hc]
      exact fun hx => hne hx.symm
  · rw [hspi]
    split
    case isTrue hc => intro hcon; exact absurd rfl hcon
    case isFalse hc => intro _; rfl

/-- Witness for `read_failure_policy` at a concrete input. -/
theorem read_failure_policy_witness :
    ((0 : Int) ≤ 0 ∧ (pgZero.i2cReadDevice 0 1).1 ≤ (1 : Int)) ∧
    (((bme69x_i2c_read pgZero 0 3 [1] 1).1 = BME69X_E_COM_FAIL ↔
      (pgZero.i2cWriteDevice 0 [3] < 0 ∨ (pgZero.i2cReadDevice 0 1).1 < (1 : Int))) ∧
    ((bme69x_i2c_read pgZero 0 3 [1] 1).1 ≠ BME69X_E_COM_FAIL →
      (bme69x_i2c_read pgZero 0 3 [1] 1).1 = BME69X_INTF_RET_SUCCESS) ∧
    ((bme69x_spi_read pgZero 0 3 [1] 1).1 = BME69X_E_COM_FAIL ↔
      (pgZero.spiXfer 0 (Nat.lor 3 0x80 :: List.replicate 1 0)).1 < 0) ∧
    ((bme69x_spi_read pgZero 0 3 [1] 1).1 ≠ BME69X_E_COM_FAIL →
      (bme69x_spi_read pgZero 0 3 [1] 1).1 = BME69X_INTF_RET_SUCCESS)) :=
  ⟨⟨le_rfl, by norm_num [pgZero]⟩,
    read_failure_policy pgZero 0 3 [1] 1 le_rfl (by norm_num [pgZero])⟩

/-! ### C5: status propagation in main -/

/-- C5 counterexample: main does not abort on an initialization failure.
With `bme69x_interface_init` returning communication-failure and the
later calls succeeding, the process exit code is 0, not 1. -/
theorem main_ignores_init_failure_counterexample :
    main_run ⟨BME69X_E_COM_FAIL, BME69X_OK, BME69X_OK⟩ = 0 ∧
    BME69X_E_COM_FAIL ≠ BME69X_OK := by
  constructor
  · rfl
  · norm_num [BME69X_E_COM_FAIL, BME69X_OK]

/-- C5 (amended): in main the interface-initialization and
driver-initialization statuses are passed only to a printing helper and
never abort the sequence; the exit code is 0 exactly when
`custom_selftest_check` returned success, and is unaffected by the two
initialization statuses. -/
theorem main_exit_code_policy (env : MainEnv) :
    (main_run env = 0 ↔ env.selftest_rslt = BME69X_OK) ∧
    (∀ i1 i2, main_run ⟨i1, i2, env.selftest_rslt⟩ = main_run env) := by
  constructor
  · show (if env.selftest_rslt = BME69X_OK then (0 : Nat) else 1) = 0 ↔
      env.selftest_rslt = BME69X_OK
    split
    case isTrue hc => simp [hc]
    case isFalse hc => simp [hc]
  · intro i1 i2
    rfl

/-! ### C6: the chip-identifier gate -/

/-- A self-test environment in which every driver call succeeds and the
measurement record is nominal (25 degC, 101325 Pa = 1013.25 hPa, 45 %RH,
all status bits set). -/
def envNominal : SelfTestEnv where
  chip_id := BME69X_CHIP_ID
  get_conf_rslt := BME69X_OK
  set_conf_rslt := BME69X_OK
  set_heatr_conf_rslt := BME69X_OK
  set_op_mode_rslt := BME69X_OK
  get_data_rslt := BME69X_OK
  n_fields := 1
  temperature := 25
  pressure := 101325
  humidity := 45
  status := 0xB0
  idac := 0x40

/-- C6: if the device's chip identifier differs from the expected
constant, the self-test returns device-not-found with an empty
driver-call trace (before any configuration call); if it matches, the
first driver call of the sequence is the configuration fetch. -/
theorem selftest_chip_id_gate (env : SelfTestEnv) :
    (env.chip_id ≠ BME69X_CHIP_ID →
      custom_selftest_check env = (BME69X_E_DEV_NOT_FOUND, [])) ∧
    (env.chip_id = BME69X_CHIP_ID →
      (custom_selftest_check env).2.head? = some DriverCall.get_conf) := by
  constructor
  · intro hne
    simp [custom_selftest_check, hne]
  · intro heq
    unfold custom_selftest_check
    rw [if_neg (show ¬ env.chip_id ≠ BME69X_CHIP_ID from fun hne => hne heq)]
    split
    · rfl
    · split
      · rfl
      · split
        · rfl
        · split
          · rfl
          · split
            · rfl
            · split
              · rfl
              · split <;> rfl

/-- Witness for `selftest_chip_id_gate` at concrete inputs: a chip id of
0x55 aborts before any configuration call; the nominal environment's
first driver call is the configuration fetch. -/
theorem selftest_chip_id_gate_witness :
    (({ envNominal with chip_id := 0x55 } : SelfTestEnv).chip_id ≠ BME69X_CHIP_ID ∧
      custom_selftest_check { envNominal with chip_id := 0x55 } =
        (BME69X_E_DEV_NOT_FOUND, [])) ∧
    (envNominal.chip_id = BME69X_CHIP_ID ∧
      (custom_selftest_check envNominal).2.head? = some DriverCall.get_conf) :=
  ⟨⟨by norm_num [envNominal, BME69X_CHIP_ID],
    (selftest_chip_id_gate _).1 (by norm_num [envNominal, BME69X_CHIP_ID])⟩,
   ⟨rfl, (selftest_chip_id_gate envNominal).2 rfl⟩⟩

/-! ### C7: measurement range validation -/

/-- When the sequence reaches step 5, the self-test result is determined
by the three range checks (step 6 and the summary never change it). -/
lemma selftest_result_at_validation (env : SelfTestEnv)
    (hchip : env.chip_id = BME69X_CHIP_ID)
    (hgc : env.get_conf_rslt = BME69X_OK)
    (hsc : env.set_conf_rslt = BME69X_OK)
    (hom : env.set_op_mode_rslt = BME69X_OK)
    (hgd : env.get_data_rslt = BME69X_OK)
    (hnf : env.n_fields ≠ 0) :
    (custom_selftest_check env).1 =
      if env.temperature < 0 ∨ env.temperature > 60 then BME69X_E_SELF_TEST
      else if env.pressure / 100 < 300 ∨ env.pressure / 100 > 1200 then BME69X_E_SELF_TEST
      else if env.humidity < 0 ∨ env.humidity > 100 then BME69X_E_SELF_TEST
      else BME69X_OK := by
  unfold custom_selftest_check
  rw [if_neg (show ¬ env.chip_id ≠ BME69X_CHIP_ID from fun hne => hne hchip)]
  rw [if_neg (show ¬ env.get_conf_rslt ≠ BME69X_OK from fun hne => hne hgc)]
  rw [if_neg (show ¬ env.set_conf_rslt ≠ BME69X_OK from fun hne => hne hsc)]
  rw [if_neg (show ¬ env.set_op_mode_rslt ≠ BME69X_OK from fun hne => hne hom)]
  rw [if_neg (show ¬ (env.get_data_rslt ≠ BME69X_OK ∨ env.n_fields = 0) from
    not_or.mpr ⟨fun hne => hne hgd, hnf⟩)]
  split
  · rfl
  · split
    · rfl
    · split
      · rfl
      · rfl

/-- C7: once the sequence reaches the validation step, the result is the
self-test-error status exactly when temperature, pressure/100 or humidity
is outside its range (boundary values pass); any violation makes the
process exit with code 1, and in-range values make the check succeed. -/
theorem selftest_range_validation (env : SelfTestEnv)
    (hchip : env.chip_id = BME69X_CHIP_ID)
    (hgc : env.get_conf_rslt = BME69X_OK)
    (hsc : env.set_conf_rslt = BME69X_OK)
    (hom : env.set_op_mode_rslt = BME69X_OK)
    (hgd : env.get_data_rslt = BME69X_OK)
    (hnf : env.n_fields ≠ 0) :
    ((custom_selftest_check env).1 = BME69X_E_SELF_TEST ↔
      ((env.temperature < 0 ∨ env.temperature > 60) ∨
        (env.pressure / 100 < 300 ∨ env.pressure / 100 > 1200) ∨
        (env.humidity < 0 ∨ env.humidity > 100))) ∧
    (((env.temperature < 0 ∨ env.temperature > 60) ∨
        (env.pressure / 100 < 300 ∨ env.pressure / 100 > 1200) ∨
        (env.humidity < 0 ∨ env.humidity > 100)) →
      ∀ i1 i2, main_run ⟨i1, i2, (custom_selftest_check env).1⟩ = 1) ∧
    (¬ ((env.temperature < 0 ∨ env.temperature > 60) ∨
        (env.pressure / 100 < 300 ∨ env.pressure / 100 > 1200) ∨
        (env.humidity < 0 ∨ env.humidity > 100)) →
      (custom_selftest_check env).1 = BME69X_OK) := by
  have hres := selftest_result_at_validation env hchip hgc hsc hom hgd hnf
  have hne : BME69X_E_SELF_TEST ≠ BME69X_OK := by
    norm_num [BME69X_E_SELF_TEST, BME69X_OK]
  have hiff : (custom_selftest_check env).1 = BME69X_E_SELF_TEST ↔
      ((env.temperature < 0 ∨ env.temperature > 60) ∨
        (env.pressure / 100 < 300 ∨ env.pressure / 100 > 1200) ∨
        (env.humidity < 0 ∨ env.humidity > 100)) := by
    rw [hres]
    by_cases ht : env.temperature < 0 ∨ env.temperature > 60
    · simp [ht]
    · by_cases hp : env.pressure / 100 < 300 ∨ env.pressure / 100 > 1200
      · simp [ht, hp]
      · by_cases hu : env.humidity < 0 ∨ env.humidity > 100
        · simp [ht, hp, hu]
        · simp [ht, hp, hu]
          exact fun hx => hne hx.symm
  refine ⟨hiff, ?_, ?_⟩
  · intro hviol i1 i2
    have hst : (custom_selftest_check env).1 = BME69X_E_SELF_TEST := hiff.mpr hviol
    show (if (custom_selftest_check env).1 = BME69X_OK then (0 : Nat) else 1) = 1
    rw [if_neg (by rw [hst]; exact hne)]
  · intro hnv
    rcases not_or.mp hnv with ⟨ht, hpu⟩
    rcases not_or.mp hpu with ⟨hp, hu⟩
    rw [hres, if_neg ht, if_neg hp, if_neg hu]

/-- Witness for `selftest_range_validation`: with temperature 70 degC and
everything else nominal, the check returns the self-test-error status and
the process exits with code 1. -/
theorem selftest_range_validation_witness :
    (({ envNominal with temperature := 70 } : SelfTestEnv).chip_id = BME69X_CHIP_ID ∧
      ({ envNominal with temperature := 70 } : SelfTestEnv).n_fields ≠ 0) ∧
    (custom_selftest_check { envNominal with temperature := 70 }).1 = BME69X_E_SELF_TEST ∧
    main_run ⟨BME69X_OK, BME69X_OK,
      (custom_selftest_check { envNominal with temperature := 70 }).1⟩ = 1 := by
  have h := selftest_range_validation { envNominal with temperature := 70 }
    rfl rfl rfl rfl rfl (by norm_num [envNominal])
  have hviol : (({ envNominal with temperature := 70 } : SelfTestEnv).temperature < 0 ∨
      ({ envNominal with temperature := 70 } : SelfTestEnv).temperature > 60) ∨
      (({ envNominal with temperature := 70 } : SelfTestEnv).pressure / 100 < 300 ∨
        ({ envNominal with temperature := 70 } : SelfTestEnv).pressure / 100 > 1200) ∨
      (({ envNominal with temperature := 70 } : SelfTestEnv).humidity < 0 ∨
        ({ envNominal with temperature := 70 } : SelfTestEnv).humidity > 100) := by
    left
    right
    show (70 : ℚ) > 60
    norm_num
  exact ⟨⟨rfl, by norm_num [envNominal]⟩, h.1.mpr hviol, h.2.1 hviol BME69X_OK BME69X_OK⟩

/-! ### C8: heater-configuration failure is a warning -/

/-- C8: the heater-configuration status never becomes the returned
status: the check's value does not depend on it at all, and when every
other step succeeds with in-range values while the heater configuration
fails, the result is success and the process exits with code 0. -/
theorem selftest_heater_failure_is_warning (env : SelfTestEnv)
    (hchip : env.chip_id = BME69X_CHIP_ID)
    (hgc : env.get_conf_rslt = BME69X_OK)
    (hsc : env.set_conf_rslt = BME69X_OK)
    (_hht : env.set_heatr_conf_rslt ≠ BME69X_OK)
    (hom : env.set_op_mode_rslt = BME69X_OK)
    (hgd : env.get_data_rslt = BME69X_OK)
    (hnf : env.n_fields ≠ 0)
    (ht : ¬ (env.temperature < 0 ∨ env.temperature > 60))
    (hp : ¬ (env.pressure / 100 < 300 ∨ env.pressure / 100 > 1200))
    (hu : ¬ (env.humidity < 0 ∨ env.humidity > 100)) :
    (custom_selftest_check env).1 = BME69X_OK ∧
    (∀ i1 i2, main_run ⟨i1, i2, (custom_selftest_check env).1⟩ = 0) ∧
    (∀ r, custom_selftest_check { env with set_heatr_conf_rslt := r } =
      custom_selftest_check env) := by
  have hres := selftest_result_at_validation env hchip hgc hsc hom hgd hnf
  have hok : (custom_selftest_check env).1 = BME69X_OK := by
    rw [hres, if_neg ht, if_neg hp, if_neg hu]
  refine ⟨hok, ?_, ?_⟩
  · intro i1 i2
    show (if (custom_selftest_check env).1 = BME69X_OK then (0 : Nat) else 1) = 0
    rw [if_pos hok]
  · intro r
    rfl

/-- Witness for `selftest_heater_failure_is_warning`: heater
configuration fails with communication-failure, everything else nominal;
the self-test still passes and the process exits with code 0. -/
theorem selftest_heater_failure_is_warning_witness :
    ({ envNominal with set_heatr_conf_rslt := BME69X_E_COM_FAIL } :
        SelfTestEnv).set_heatr_conf_rslt ≠ BME69X_OK ∧
    (custom_selftest_check
        { envNominal with set_heatr_conf_rslt := BME69X_E_COM_FAIL }).1 = BME69X_OK ∧
    main_run ⟨BME69X_OK, BME69X_OK,
      (custom_selftest_check
        { envNominal with set_heatr_conf_rslt := BME69X_E_COM_FAIL }).1⟩ = 0 := by
  have h := selftest_heater_failure_is_warning
    { envNominal with set_heatr_conf_rslt := BME69X_E_COM_FAIL }
    rfl rfl rfl (by norm_num [BME69X_E_COM_FAIL, BME69X_OK]) rfl rfl
    (by norm_num [envNominal])
    (by norm_num [envNominal])
    (by norm_num [envNominal])
    (by norm_num [envNominal])
  exact ⟨by norm_num [BME69X_E_COM_FAIL, BME69X_OK], h.1, h.2.1 BME69X_OK BME69X_OK⟩

/-! ### C9: deinit idempotence -/

/-- Deinit on a state with both handles negative performs only the GPIO
shutdown and leaves the state unchanged. -/
lemma deinit_of_neg (st : CommonState)
    (hi : st.i2c_handle < 0) (hs : st.spi_handle < 0) :
    bme69x_pigpio_deinit st = (st, [LifeCall.gpioTerminate]) := by
  have hi2 : ¬ st.i2c_handle ≥ 0 := not_le.mpr hi
  have hs2 : ¬ st.spi_handle ≥ 0 := not_le.mpr hs
  simp [bme69x_pigpio_deinit, hi2, hs2]

/-- After one deinit call, both handles are negative. -/
lemma deinit_handles_neg (st : CommonState) :
    (bme69x_pigpio_deinit st).1.i2c_handle < 0 ∧
    (bme69x_pigpio_deinit st).1.spi_handle < 0 := by
  by_cases hi : st.i2c_handle ≥ 0 <;> by_cases hs : st.spi_handle ≥ 0 <;>
    simp [bme69x_pigpio_deinit, hi, hs] <;> omega

/-- C9: after one deinit both bus handles are in the unopened (negative)
state; a second consecutive call closes no handle and leaves the handle
state unchanged (it only shuts down the GPIO subsystem), and the same
holds for any call on a state whose handles are both negative — as after
a failed init or when nothing was ever opened. -/
theorem deinit_idempotent (st : CommonState) :
    (bme69x_pigpio_deinit st).1.i2c_handle < 0 ∧
    (bme69x_pigpio_deinit st).1.spi_handle < 0 ∧
    bme69x_pigpio_deinit (bme69x_pigpio_deinit st).1 =
      ((bme69x_pigpio_deinit st).1, [LifeCall.gpioTerminate]) ∧
    (st.i2c_handle < 0 → st.spi_handle < 0 →
      bme69x_pigpio_deinit st = (st, [LifeCall.gpioTerminate])) := by
  obtain ⟨h1, h2⟩ := deinit_handles_neg st
  exact ⟨h1, h2, deinit_of_neg _ h1 h2, fun hi hs => deinit_of_neg st hi hs⟩

/-- Witness for `deinit_idempotent` at the initial state (both handles
-1, nothing ever opened). -/
theorem deinit_idempotent_witness :
    (bme69x_pigpio_deinit ⟨0x77, -1, -1⟩).1.i2c_handle < 0 ∧
    (bme69x_pigpio_deinit ⟨0x77, -1, -1⟩).1.spi_handle < 0 ∧
    bme69x_pigpio_deinit (bme69x_pigpio_deinit ⟨0x77, -1, -1⟩).1 =
      ((bme69x_pigpio_deinit ⟨0x77, -1, -1⟩).1, [LifeCall.gpioTerminate]) ∧
    ((⟨0x77, -1, -1⟩ : CommonState).i2c_handle < 0 →
      (⟨0x77, -1, -1⟩ : CommonState).spi_handle < 0 →
      bme69x_pigpio_deinit ⟨0x77, -1, -1⟩ =
        (⟨0x77, -1, -1⟩, [LifeCall.gpioTerminate])) :=
  deinit_idempotent ⟨0x77, -1, -1⟩

/-! ### C10: unknown interface selector -/

/-- C10: with a non-null device, a successfully initialized GPIO
subsystem, and an interface selector that is neither the I2C nor the SPI
value, interface-init returns success, opens no bus (the static state is
unchanged and the only pigpio call is the GPIO initialization), leaves
the device's read and write function pointers as they were (uninstalled),
and still installs the delay callback, the context pointer and the
25 degC ambient-temperature hint. -/
theorem interface_init_unknown_selector (pg : PigpioLife) (st : CommonState)
    (d : Bme69xDev) (intf : Nat) (hgpio : 0 ≤ pg.gpioInitialise)
    (h1 : intf ≠ BME69X_I2C_INTF) (h2 : intf ≠ BME69X_SPI_INTF) :
    bme69x_interface_init pg st (some d) intf =
      (BME69X_OK, st,
        some { d with delay_us := true, intf_ptr := true, amb_temp := 25 },
        [LifeCall.gpioInitialise]) ∧
    ({ d with delay_us := true, intf_ptr := true, amb_temp := 25 } :
      Bme69xDev).read = d.read ∧
    ({ d with delay_us := true, intf_ptr := true, amb_temp := 25 } :
      Bme69xDev).write = d.write := by
  refine ⟨?_, rfl, rfl⟩
  have hg2 : ¬ pg.gpioInitialise < 0 := not_lt.mpr hgpio
  simp [bme69x_interface_init, hg2, h1, h2, installCommonFields]

/-- Witness for `interface_init_unknown_selector` at a concrete input
(selector 5, fresh device, initial state). -/
theorem interface_init_unknown_selector_witness :
    ((0 : Int) ≤ 0 ∧ (5 : Nat) ≠ BME69X_I2C_INTF ∧ (5 : Nat) ≠ BME69X_SPI_INTF) ∧
    (bme69x_interface_init ⟨0, -1, -1⟩ ⟨0x77, -1, -1⟩
        (some ⟨XferPtr.unset, XferPtr.unset, 0, false, false, 0⟩) 5 =
      (BME69X_OK, ⟨0x77, -1, -1⟩,
        some { (⟨XferPtr.unset, XferPtr.unset, 0, false, false, 0⟩ : Bme69xDev) with
          delay_us := true, intf_ptr := true, amb_temp := 25 },
        [LifeCall.gpioInitialise]) ∧
      ({ (⟨XferPtr.unset, XferPtr.unset, 0, false, false, 0⟩ : Bme69xDev) with
          delay_us := true, intf_ptr := true, amb_temp := 25 } : Bme69xDev).read =
        (⟨XferPtr.unset, XferPtr.unset, 0, false, false, 0⟩ : Bme69xDev).read ∧
      ({ (⟨XferPtr.unset, XferPtr.unset, 0, false, false, 0⟩ : Bme69xDev) with
          delay_us := true, intf_ptr := true, amb_temp := 25 } : Bme69xDev).write =
        (⟨XferPtr.unset, XferPtr.unset, 0, false, false, 0⟩ : Bme69xDev).write) :=
  ⟨⟨le_rfl, by norm_num [BME69X_I2C_INTF], by norm_num [BME69X_SPI_INTF]⟩,
    interface_init_unknown_selector ⟨0, -1, -1⟩ ⟨0x77, -1, -1⟩
      ⟨XferPtr.unset, XferPtr.unset, 0, false, false, 0⟩ 5 le_rfl
      (by norm_num [BME69X_I2C_INTF]) (by norm_num [BME69X_SPI_INTF])⟩
